import Mathlib

set_option maxRecDepth 10000

deriving instance DecidableEq for Except

/-
A shallow embedding of the TwitchRSS service core (src/TwitchRSS/twitchrss.py).

Conventions of the embedding:
- Machine time (`round(time.time())`) is a `Nat` supplied by the request
  environment (`Env.now`); one clock reading is used per request, matching the
  near-instantaneous double read in `authorize`.
- HTTP bodies fetched from the upstream API are modelled by `RawBody α`:
  `RawBody.empty` stands for a falsy bytes object (`b""`, the only falsy value
  `fetch_json` can return), and `RawBody.parsed doc` stands for a non-empty
  body together with its `json.loads` result.  `get_inner` only observes the
  truthiness of the bytes and the parsed document, so this pairing is lossless
  for the behaviours under study; bodies that are non-empty yet fail JSON
  parsing are outside every claim and are not represented.
- The network is modelled by response maps in `Env`; a `.error ()` response
  stands for all three bounded retries of the fetch loop failing (timeout,
  transport error, or - for the token endpoint - a parse failure), which the
  source turns into `abort(503)`.  Responses are per-request: all retry
  attempts of one request see the same outcome.
- Every upstream interaction is recorded in a `List Call` trace so that
  "no network call happens" claims are expressible.
- Flask `abort(404)` appears as `HErr.notFound` or `HErr.malformed`
  (the latter tags the `except KeyError: abort(404)` branch of
  `construct_rss`; both surface as HTTP 404), `abort(503)` as
  `HErr.unavailable`, and an uncaught Python exception (which Flask turns
  into a 500 response) as `HErr.internal` with the exception class name.
-/

/- ## Python string primitives used by the source -/

/-- Numeric value of an ASCII digit character. -/
def digitVal (c : Char) : Nat := c.toNat - 48

/-- Bounded character-range test (used to transcribe regex character classes). -/
def charBetween (lo hi c : Char) : Bool := decide (lo ≤ c) && decide (c ≤ hi)

/-- Fuel-indexed worker for `pyReplace`; the fuel is the length of the subject,
which bounds the number of steps since every step consumes at least one
character. -/
def replaceAux (pat repl : List Char) : Nat → List Char → List Char
  | 0, s => s
  | _ + 1, [] => []
  | fuel + 1, c :: rest =>
    if pat ≠ [] ∧ pat.isPrefixOf (c :: rest) then
      repl ++ replaceAux pat repl fuel ((c :: rest).drop pat.length)
    else c :: replaceAux pat repl fuel rest

/-- Python `str.replace`: replace every non-overlapping occurrence of `pat`
in `s` by `repl`, scanning left to right. -/
def pyReplace (s pat repl : String) : String :=
  ⟨replaceAux pat.data repl.data s.data.length s.data⟩

/-- Worker for `pyContains`. -/
def containsAux (pat : List Char) : List Char → Bool
  | [] => pat.isEmpty
  | c :: rest => pat.isPrefixOf (c :: rest) || containsAux pat rest

/-- Python `pat in s` substring test (used for `Accept-Encoding` sniffing). -/
def pyContains (s pat : String) : Bool := containsAux pat.data s.data

/-- Python `str.rstrip("\n")`: drop every trailing newline. -/
def rstripNewlines (s : String) : String :=
  ⟨(s.data.reverse.dropWhile (fun c => c == '\n')).reverse⟩

/-- UTF-8 encoding of one character, as byte values. -/
def utf8Bytes (c : Char) : List Nat :=
  let n := c.toNat
  if n < 128 then [n]
  else if n < 2048 then [192 + n / 64, 128 + n % 64]
  else if n < 65536 then [224 + n / 4096, 128 + (n / 64) % 64, 128 + n % 64]
  else [240 + n / 262144, 128 + (n / 4096) % 64, 128 + (n / 64) % 64, 128 + n % 64]

/-- Upper-case hexadecimal digit, as used by `urllib.parse.quote`. -/
def hexDigit (n : Nat) : Char := if n < 10 then Char.ofNat (48 + n) else Char.ofNat (55 + n)

/-- Byte values left unescaped by `urllib.parse.quote(_, safe='/:')`:
the always-safe set `[A-Za-z0-9_.\-~]` plus the explicit safe characters
`/` and `:`. -/
def quoteSafeByte (b : Nat) : Bool :=
  (65 ≤ b && b ≤ 90) || (97 ≤ b && b ≤ 122) || (48 ≤ b && b ≤ 57) ||
  b == 95 || b == 46 || b == 45 || b == 126 || b == 47 || b == 58

/-- `urllib.parse.quote(vod_url, safe='/:')` as used to sanitize the page URL
before handing it to streamlink: percent-escape every UTF-8 byte outside the
safe set. -/
def pyQuote (s : String) : String :=
  ⟨(s.data.foldr (fun c acc => utf8Bytes c ++ acc) []).foldr
    (fun b acc =>
      if quoteSafeByte b then Char.ofNat b :: acc
      else '%' :: hexDigit (b / 16) :: hexDigit (b % 16) :: acc) []⟩

/- ## `datetime.datetime.strptime(_, '%Y-%m-%dT%H:%M:%SZ')`

CPython's `_strptime` compiles the format into a regex (with `re.IGNORECASE`)
whose numeric fields are
  `%Y → \d\d\d\d`, `%m → 1[0-2]|0[1-9]|[1-9]`, `%d → 3[01]|[12]\d|0[1-9]|[1-9]`,
  `%H → 2[0-3]|[0-1]\d|\d`, `%M → [0-5]\d|\d`, `%S → 6[0-1]|[0-5]\d|\d`,
requires the whole string to be consumed ("unconverted data remains"), and
then builds a `datetime`, which additionally demands `1 <= year`, a calendar-
valid day, and `second <= 59`.  The alternation order below follows the regex;
no cross-token backtracking is needed for this format because every literal
that follows a variable-width field (`-`, `T`, `:`, `Z`) is a non-digit, so a
longer numeric alternative can never steal a character the continuation
needs. -/

/-- Parsed result of a successful `strptime` call (a UTC datetime; the source
localizes it with `pytz.utc`, which adds no information). -/
structure PyDateTime where
  year : Nat
  month : Nat
  day : Nat
  hour : Nat
  minute : Nat
  second : Nat
deriving DecidableEq

/-- Gregorian leap-year rule (as in Python's `calendar`/`datetime`). -/
def isLeapYear (y : Nat) : Bool := (y % 4 == 0 && y % 100 != 0) || y % 400 == 0

/-- Number of days of a month, as enforced by the `datetime` constructor. -/
def daysInMonth (y m : Nat) : Nat :=
  if m == 2 then (if isLeapYear y then 29 else 28)
  else if m == 4 || m == 6 || m == 9 || m == 11 then 30
  else 31

/-- Regex fragment `\d\d\d\d` (the `%Y` directive). -/
def pYear : List Char → Option (Nat × List Char)
  | a :: b :: c :: d :: rest =>
    if a.isDigit && b.isDigit && c.isDigit && d.isDigit then
      some (1000 * digitVal a + 100 * digitVal b + 10 * digitVal c + digitVal d, rest)
    else none
  | _ => none

/-- Regex fragment `1[0-2]|0[1-9]|[1-9]` (the `%m` directive). -/
def pMonth : List Char → Option (Nat × List Char)
  | [] => none
  | [a] => if charBetween '1' '9' a then some (digitVal a, []) else none
  | a :: b :: rest =>
    if a == '1' && charBetween '0' '2' b then some (10 + digitVal b, rest)
    else if a == '0' && charBetween '1' '9' b then some (digitVal b, rest)
    else if charBetween '1' '9' a then some (digitVal a, b :: rest)
    else none

/-- Regex fragment `3[01]|[12]\d|0[1-9]|[1-9]` (the `%d` directive). -/
def pDay : List Char → Option (Nat × List Char)
  | [] => none
  | [a] => if charBetween '1' '9' a then some (digitVal a, []) else none
  | a :: b :: rest =>
    if a == '3' && charBetween '0' '1' b then some (30 + digitVal b, rest)
    else if charBetween '1' '2' a && b.isDigit then some (10 * digitVal a + digitVal b, rest)
    else if a == '0' && charBetween '1' '9' b then some (digitVal b, rest)
    else if charBetween '1' '9' a then some (digitVal a, b :: rest)
    else none

/-- Regex fragment `2[0-3]|[0-1]\d|\d` (the `%H` directive). -/
def pHour : List Char → Option (Nat × List Char)
  | [] => none
  | [a] => if a.isDigit then some (digitVal a, []) else none
  | a :: b :: rest =>
    if a == '2' && charBetween '0' '3' b then some (20 + digitVal b, rest)
    else if charBetween '0' '1' a && b.isDigit then some (10 * digitVal a + digitVal b, rest)
    else if a.isDigit then some (digitVal a, b :: rest)
    else none

/-- Regex fragment `[0-5]\d|\d` (the `%M` directive). -/
def pMinute : List Char → Option (Nat × List Char)
  | [] => none
  | [a] => if a.isDigit then some (digitVal a, []) else none
  | a :: b :: rest =>
    if charBetween '0' '5' a && b.isDigit then some (10 * digitVal a + digitVal b, rest)
    else if a.isDigit then some (digitVal a, b :: rest)
    else none

/-- Regex fragment `6[0-1]|[0-5]\d|\d` (the `%S` directive; 60 and 61 pass the
regex but are later rejected by the `datetime` constructor). -/
def pSecond : List Char → Option (Nat × List Char)
  | [] => none
  | [a] => if a.isDigit then some (digitVal a, []) else none
  | a :: b :: rest =>
    if a == '6' && charBetween '0' '1' b then some (60 + digitVal b, rest)
    else if charBetween '0' '5' a && b.isDigit then some (10 * digitVal a + digitVal b, rest)
    else if a.isDigit then some (digitVal a, b :: rest)
    else none

/-- One literal character of the format; `_strptime` compiles the pattern with
`re.IGNORECASE`, so the literals `T` and `Z` also match their lower-case
forms. -/
def pLit (c : Char) : List Char → Option (List Char)
  | [] => none
  | x :: rest => if x.toLower == c.toLower then some rest else none

/-- `datetime.datetime.strptime(s, '%Y-%m-%dT%H:%M:%SZ')`: `some` of the parsed
datetime, or `none` when the call raises `ValueError`. -/
def strptime_vod_format (s : String) : Option PyDateTime :=
  (pYear s.data).bind fun yr =>
  (pLit '-' yr.2).bind fun r2 =>
  (pMonth r2).bind fun mo =>
  (pLit '-' mo.2).bind fun r4 =>
  (pDay r4).bind fun dy =>
  (pLit 'T' dy.2).bind fun r6 =>
  (pHour r6).bind fun hr =>
  (pLit ':' hr.2).bind fun r8 =>
  (pMinute r8).bind fun mi =>
  (pLit ':' mi.2).bind fun r10 =>
  (pSecond r10).bind fun sc =>
  (pLit 'Z' sc.2).bind fun r12 =>
  if r12 = [] ∧ 1 ≤ yr.1 ∧ dy.1 ≤ daysInMonth yr.1 mo.1 ∧ sc.1 ≤ 59 then
    some ⟨yr.1, mo.1, dy.1, hr.1, mi.1, sc.1⟩
  else none

/- ## Data model -/

/-- One upstream interaction, for call-trace bookkeeping. -/
inductive Call where
  | token
  | userid (login : String)
  | vods (channelId : String)
  | streamlink (url : String)
deriving DecidableEq

/-- Error outcomes of a request, as observed at the Flask layer. -/
inductive HErr where
  | notFound
  | unavailable
  | malformed
  | internal (exc : String)
deriving DecidableEq

/-- Python exception classes that can escape the entry loop of
`construct_rss`: `KeyError` is caught there and turned into `abort(404)`;
the streamlink `Exception` and the strptime `ValueError` propagate out of the
handler uncaught. -/
inductive BuildErr where
  | keyError
  | streamlinkError
  | valueError
deriving DecidableEq

/-- An HTTP body as returned by `fetch_json`: `empty` is a falsy bytes object
(`b""`), `parsed` is a non-empty body paired with its `json.loads` result. -/
inductive RawBody (α : Type) where
  | empty
  | parsed (doc : α)
deriving DecidableEq

/-- One record of the identity lookup's `data` array.  The three keys read by
`extract_userid` are modelled as always present (a missing key would raise an
uncaught `KeyError`; no claim exercises that path). -/
structure UserInfo where
  id : String
  display_name : String
  profile_image_url : String
deriving DecidableEq

/-- Decoded identity-lookup document (`json.loads(user_json)`). -/
structure UserDoc where
  data : List UserInfo
deriving DecidableEq

/-- One video record of the listing's `data` array.  Each field read via
`vod[...]` is an `Option`; `none` models an absent key (dict `KeyError`). -/
structure Vod where
  url : Option String
  title : Option String
  thumbnail_url : Option String
  description : Option String
  created_at : Option String
  id : Option String
deriving DecidableEq

/-- Decoded listing document (`json.loads(channel_json)`). -/
structure VodDoc where
  data : List Vod
deriving DecidableEq

/-- Decoded token-endpoint response body; the two keys the source reads are
`Option`s so that a body lacking one of them (a per-attempt `KeyError`) is
representable. -/
structure TokenBody where
  access_token : Option String
  expires_in : Option Nat
deriving DecidableEq

/-- The credential globals `TWITCH_OAUTH_TOKEN` / `TWITCH_OAUTH_EXPIRE_EPOCH`. -/
structure TokenSt where
  token : String
  expire : Nat
deriving DecidableEq

/-- The request environment: the clock reading and the upstream world's
response to each possible call.  `.error ()` means all bounded retries of the
corresponding fetch fail. -/
structure Env where
  now : Nat
  acceptEncoding : String
  tokenResp : Except Unit TokenBody
  userResp : String → Except Unit (RawBody UserDoc)
  vodResp : String → Except Unit (RawBody VodDoc)
  audioResp : String → Except Unit String

/-- Process-wide mutable state: the credential globals and the three
`cachetools.TTLCache` instances (stored as key / storage-time / value lists,
newest first). -/
structure St where
  tokenSt : TokenSt
  useridCache : List (String × Nat × RawBody UserDoc)
  vodCache : List (String × Nat × RawBody VodDoc)
  audioCache : List (String × Nat × String)
deriving DecidableEq

/- ## The `@cached(cache=TTLCache(...))` combinator

Modelled from the spec's CachedLookup contract in section 4.3 (the decorator
and `TTLCache` come from the external `cachetools` dependency, which is not
part of this repository): a hit within TTL returns the stored value with no
loader invocation; a miss or an expired entry invokes the loader and stores a
returned value; an exception escaping the loader stores nothing.  An entry
stored at time `t` with lifetime `ttl` is served while `now < t + ttl`.
Capacity eviction drops the oldest entries once `maxsize` is exceeded. -/

/-- Constants of the source (`VODCACHE_LIFETIME`, `USERIDCACHE_LIFETIME` and
the three decorator `maxsize` arguments). -/
def VODCACHE_LIFETIME : Nat := 10 * 60

def USERIDCACHE_LIFETIME : Nat := 24 * 60 * 60

def USERID_CACHE_MAXSIZE : Nat := 3000

def VOD_CACHE_MAXSIZE : Nat := 500

def AUDIO_CACHE_MAXSIZE : Nat := 3000

/-- Look up a non-expired entry. -/
def cacheGet {ν : Type} (ttl now : Nat) (k : String) :
    List (String × Nat × ν) → Option ν
  | [] => none
  | e :: rest => if e.1 = k ∧ now < e.2.1 + ttl then some e.2.2 else cacheGet ttl now k rest

/-- Drop every entry stored under `k`. -/
def cacheRemove {ν : Type} (k : String) (cache : List (String × Nat × ν)) :
    List (String × Nat × ν) :=
  cache.filter (fun e => decide (e.1 ≠ k))

/-- Store `v` under `k` at time `now`, evicting the oldest entries beyond the
capacity. -/
def cacheInsert {ν : Type} (maxsize now : Nat) (k : String) (v : ν)
    (cache : List (String × Nat × ν)) : List (String × Nat × ν) :=
  ((k, now, v) :: cacheRemove k cache).take maxsize

/-- Result of one call of a `@cached`-decorated function: its outcome, the
cache afterwards, the threaded-through credential (or unit) state, whether the
wrapped loader ran, and the upstream calls made. -/
structure CachedR (ε ν σ : Type) where
  res : Except ε ν
  cache : List (String × Nat × ν)
  inner : σ
  fetched : Bool
  calls : List Call
deriving DecidableEq

/-- One call of a `@cached`-decorated function. -/
def cachedCall {ε ν σ : Type} (ttl maxsize now : Nat) (k : String)
    (cache : List (String × Nat × ν)) (load : σ → Except ε ν × σ × List Call)
    (s : σ) : CachedR ε ν σ :=
  match cacheGet ttl now k cache with
  | some v => ⟨.ok v, cache, s, false, []⟩
  | none =>
    match load s with
    | (.ok v, s2, cs) => ⟨.ok v, cacheInsert maxsize now k v cache, s2, true, cs⟩
    | (.error e, s2, cs) => ⟨.error e, cache, s2, true, cs⟩

/- ## Credential manager and fetchers -/

/-- Result of `authorize()`. -/
structure AuthR where
  res : Except HErr Unit
  tok : TokenSt
  calls : List Call
deriving DecidableEq

/-- `authorize()`: a no-op while `TWITCH_OAUTH_EXPIRE_EPOCH >= round(time.time())`;
otherwise three attempts of the client-credentials exchange.  An attempt that
yields a body with `access_token` assigns the token global *before* reading
`expires_in`, so a body lacking only `expires_in` leaves a half-updated
credential behind; after three failed attempts the handler is aborted with
503. -/
def authorize (now : Nat) (tokenResp : Except Unit TokenBody) (ts : TokenSt) : AuthR :=
  if ts.expire ≥ now then ⟨.ok (), ts, []⟩
  else
    match tokenResp with
    | .error _ => ⟨.error .unavailable, ts, [.token, .token, .token]⟩
    | .ok body =>
      match body.access_token with
      | none => ⟨.error .unavailable, ts, [.token, .token, .token]⟩
      | some tok =>
        match body.expires_in with
        | none => ⟨.error .unavailable, { token := tok, expire := ts.expire },
                   [.token, .token, .token]⟩
        | some e => ⟨.ok (), { token := tok, expire := e + now }, [.token]⟩

/-- `fetch_json`: `authorize()` first, then the bounded-retry fetch of the
given endpoint (one call on success, three failed attempts before the 503
abort otherwise). -/
def fetch_json {β : Type} (now : Nat) (tokenResp : Except Unit TokenBody)
    (resp : Except Unit β) (call : Call) (ts : TokenSt) :
    Except HErr β × TokenSt × List Call :=
  let a := authorize now tokenResp ts
  match a.res with
  | .error e => (.error e, a.tok, a.calls)
  | .ok _ =>
    match resp with
    | .ok b => (.ok b, a.tok, a.calls ++ [call])
    | .error _ => (.error .unavailable, a.tok, a.calls ++ [call, call, call])

/-- Result of a cached fetch, with the process state threaded through. -/
structure FetchR (α : Type) where
  res : Except HErr α
  st : St
  fetched : Bool
  calls : List Call

/-- `fetch_userid(channel_name)`: `fetch_json` behind a
`TTLCache(maxsize=3000, ttl=USERIDCACHE_LIFETIME)`. -/
def fetch_userid (env : Env) (st : St) (channel_name : String) : FetchR (RawBody UserDoc) :=
  let r := cachedCall USERIDCACHE_LIFETIME USERID_CACHE_MAXSIZE env.now channel_name
    st.useridCache
    (fun ts => fetch_json env.now env.tokenResp (env.userResp channel_name)
      (.userid channel_name) ts)
    st.tokenSt
  ⟨r.res, { st with useridCache := r.cache, tokenSt := r.inner }, r.fetched, r.calls⟩

/-- `fetch_vods(channel_id)`: `fetch_json` behind a
`TTLCache(maxsize=500, ttl=VODCACHE_LIFETIME)`. -/
def fetch_vods (env : Env) (st : St) (channel_id : String) : FetchR (RawBody VodDoc) :=
  let r := cachedCall VODCACHE_LIFETIME VOD_CACHE_MAXSIZE env.now channel_id
    st.vodCache
    (fun ts => fetch_json env.now env.tokenResp (env.vodResp channel_id)
      (.vods channel_id) ts)
    st.tokenSt
  ⟨r.res, { st with vodCache := r.cache, tokenSt := r.inner }, r.fetched, r.calls⟩

/-- `get_audiostream_url(vod_url)`: the streamlink collaborator behind a
`TTLCache(maxsize=3000, ttl=USERIDCACHE_LIFETIME)`.  The cache key is the
*unquoted* page URL (the decorator keys on the original argument); the
collaborator receives the quoted URL; a zero exit status yields the stdout
with trailing newlines stripped, a non-zero one raises an `Exception` that is
not cached. -/
def get_audiostream_url (env : Env) (cache : List (String × Nat × String))
    (vod_url : String) : CachedR Unit String Unit :=
  cachedCall USERIDCACHE_LIFETIME AUDIO_CACHE_MAXSIZE env.now vod_url cache
    (fun _ =>
      match env.audioResp (pyQuote vod_url) with
      | .ok out => (.ok (rstripNewlines out), (), [.streamlink (pyQuote vod_url)])
      | .error _ => (.error (), (), [.streamlink (pyQuote vod_url)]))
    ()

/-- `extract_userid(user_info)`: returns the display name, id and icon when
both name and id are truthy, otherwise aborts with 404. -/
def extract_userid (user_info : UserInfo) : Except HErr (String × String × String) :=
  if user_info.display_name ≠ "" ∧ user_info.id ≠ "" then
    .ok (user_info.display_name, user_info.id, user_info.profile_image_url)
  else .error .notFound

/- ## Feed construction (`construct_rss`) -/

/-- One feed entry, with the fields the source sets on `feed.add_entry()`. -/
structure Entry where
  title : String
  enclosureUrl : String
  enclosureType : String
  linkHref : String
  linkRel : String
  description : String
  pubDate : PyDateTime
  updated : PyDateTime
  guid : String
deriving DecidableEq

/-- The feed-level metadata plus the produced entries. -/
structure FeedData where
  image : String
  feedId : String
  title : String
  selfLink : String
  author : String
  description : String
  entries : List Entry
deriving DecidableEq

/-- The fixed feed-level properties set at the top of `construct_rss`. -/
def feedMeta (display_name icon : String) (entries : List Entry) : FeedData :=
  { image := icon,
    feedId := "https://github.com/madiele/TwitchToPodcastRSS",
    title := display_name ++ "'s Twitch video RSS",
    selfLink := "https://twitchrss.appspot.com/",
    author := "Twitch RSS Generated",
    description := "The RSS Feed of " ++ display_name ++ "'s videos on Twitch",
    entries := entries }

/-- Outcome of processing one `vod` record inside the entry loop. -/
structure VodStepR where
  res : Except BuildErr Entry
  audioCache : List (String × Nat × String)
  calls : List Call
deriving DecidableEq

/-- One iteration of the entry loop, with the dict accesses in source order:
`url`, `title`, the audio resolution, `thumbnail_url`, `description`,
`created_at` (then its parse), `id`.  A missing key is a `KeyError`; a failing
audio resolution raises the streamlink `Exception`; an unparsable
`created_at` raises `ValueError`. -/
def processVod (env : Env) (ac : List (String × Nat × String)) (vod : Vod) : VodStepR :=
  match vod.url with
  | none => ⟨.error .keyError, ac, []⟩
  | some link =>
  match vod.title with
  | none => ⟨.error .keyError, ac, []⟩
  | some title =>
  let ar := get_audiostream_url env ac link
  match ar.res with
  | .error _ => ⟨.error .streamlinkError, ar.cache, ar.calls⟩
  | .ok audioUrl =>
  match vod.thumbnail_url with
  | none => ⟨.error .keyError, ar.cache, ar.calls⟩
  | some thumb =>
  let descBase := "<a href=\"" ++ link ++ "\"><img src=\"" ++
    pyReplace (pyReplace thumb "%\x7bwidth\x7d" "512") "%\x7bheight\x7d" "288" ++
    "\" /></a>"
  match vod.description with
  | none => ⟨.error .keyError, ar.cache, ar.calls⟩
  | some d =>
  let desc := if d ≠ "" then descBase ++ "<br/>" ++ d else descBase
  match vod.created_at with
  | none => ⟨.error .keyError, ar.cache, ar.calls⟩
  | some ca =>
  match strptime_vod_format ca with
  | none => ⟨.error .valueError, ar.cache, ar.calls⟩
  | some date =>
  match vod.id with
  | none => ⟨.error .keyError, ar.cache, ar.calls⟩
  | some guid =>
  ⟨.ok { title := title, enclosureUrl := audioUrl, enclosureType := "audio/mpeg",
         linkHref := link, linkRel := "related", description := desc,
         pubDate := date, updated := date, guid := guid },
   ar.cache, ar.calls⟩

/-- Outcome of the whole entry loop. -/
structure BuildR where
  res : Except BuildErr (List Entry)
  audioCache : List (String × Nat × String)
  calls : List Call
deriving DecidableEq

/-- The entry loop of `construct_rss`: the first exception aborts the loop (the
whole `for` sits in one `try`), but audio-cache writes made before the failure
persist (the cache is process-wide). -/
def buildEntries (env : Env) : List Vod → List (String × Nat × String) → BuildR
  | [], ac => ⟨.ok [], ac, []⟩
  | v :: rest, ac =>
    let r := processVod env ac v
    match r.res with
    | .error e => ⟨.error e, r.audioCache, r.calls⟩
    | .ok entry =>
      let rr := buildEntries env rest r.audioCache
      match rr.res with
      | .error e => ⟨.error e, rr.audioCache, r.calls ++ rr.calls⟩
      | .ok es => ⟨.ok (entry :: es), rr.audioCache, r.calls ++ rr.calls⟩

/-- Outcome of `construct_rss` up to (but not including) serialization. -/
structure RssR where
  res : Except BuildErr FeedData
  audioCache : List (String × Nat × String)
  calls : List Call
deriving DecidableEq

/-- `construct_rss(channel_name, vods, display_name, icon, add_live)`:
feed-level metadata plus the entry loop (`if vods:` merely skips the loop for
an empty list, which coincides with the empty loop).  `channel_name` and
`add_live` are only used by the commented-out live-stream branch and are dead
parameters. -/
def construct_rss (env : Env) (channel_name : String) (vods : List Vod)
    (display_name icon : String) (add_live : Bool)
    (ac : List (String × Nat × String)) : RssR :=
  let b := buildEntries env vods ac
  match b.res with
  | .error e => ⟨.error e, b.audioCache, b.calls⟩
  | .ok entries => ⟨.ok (feedMeta display_name icon entries), b.audioCache, b.calls⟩

/-- Modelled from the spec: the serializer (the external `feedgen`
collaborator, not part of this repository) produces the Atom document of the
feed and stamps the feed-level `updated` element - which `construct_rss` never
sets - with the current time; the spec acknowledges this in section 8 as the
"stable timestamp" the byte-identity is modulo of.  The serialized document is
modelled as the feed data plus that timestamp. -/
structure AtomDoc where
  feed : FeedData
  updated : Nat
deriving DecidableEq

/-- Modelled from the spec: `feed.atom_str()` of `feedgen` (see `AtomDoc`). -/
def atom_str (feed : FeedData) (now : Nat) : AtomDoc := ⟨feed, now⟩

/- ## Request orchestration -/

/-- The successful HTTP response of `get_inner`. -/
structure Response where
  body : AtomDoc
  contentType : String
  gzipped : Bool
deriving DecidableEq

/-- A handler outcome: response or error, the process state afterwards, and
the upstream calls made. -/
structure HandlerR where
  res : Except HErr Response
  st : St
  calls : List Call
deriving DecidableEq

/-- How an exception escaping the entry loop surfaces at the HTTP layer:
`KeyError` is caught by `construct_rss` and turned into `abort(404)`; the
other two propagate uncaught and become 500 responses. -/
def buildErrToHttp : BuildErr → HErr
  | .keyError => .malformed
  | .streamlinkError => .internal "Exception"
  | .valueError => .internal "ValueError"

/-- `get_inner(channel, add_live)`: identity fetch, falsy-body check, `data[0]`
(an `IndexError` when the array is empty), `extract_userid`, listing fetch,
falsy-body check, `construct_rss`, serialization and content negotiation. -/
def get_inner (env : Env) (st : St) (channel : String) (add_live : Bool) : HandlerR :=
  let ur := fetch_userid env st channel
  match ur.res with
  | .error e => ⟨.error e, ur.st, ur.calls⟩
  | .ok .empty => ⟨.error .notFound, ur.st, ur.calls⟩
  | .ok (.parsed udoc) =>
    match udoc.data with
    | [] => ⟨.error (.internal "IndexError"), ur.st, ur.calls⟩
    | u :: _ =>
      match extract_userid u with
      | .error e => ⟨.error e, ur.st, ur.calls⟩
      | .ok dci =>
        let vr := fetch_vods env ur.st dci.2.1
        match vr.res with
        | .error e => ⟨.error e, vr.st, ur.calls ++ vr.calls⟩
        | .ok .empty => ⟨.error .notFound, vr.st, ur.calls ++ vr.calls⟩
        | .ok (.parsed vdoc) =>
          let cr := construct_rss env channel vdoc.data dci.1 dci.2.2 add_live
            vr.st.audioCache
          let st2 := { vr.st with audioCache := cr.audioCache }
          match cr.res with
          | .error e => ⟨.error (buildErrToHttp e), st2, ur.calls ++ vr.calls ++ cr.calls⟩
          | .ok feed =>
            ⟨.ok { body := atom_str feed env.now, contentType := "text/xml",
                   gzipped := pyContains env.acceptEncoding "gzip" }, st2,
             ur.calls ++ vr.calls ++ cr.calls⟩

/-- The language of the anchored pattern `^[a-zA-Z0-9_]{2,25}$` read as a
plain full-string pattern, which is how the spec words it ("2-25 chars,
alnum/underscore"). -/
def CHANNEL_FILTER_exact (s : String) : Bool :=
  decide (2 ≤ s.length) && decide (s.length ≤ 25) &&
    s.data.all (fun c => c.isAlpha || c.isDigit || c == '_')

/-- `CHANNEL_FILTER.match(channel)` as Python's `re` evaluates it: `$` (without
`re.MULTILINE`) also matches just before one newline at the very end of the
string, so the filter additionally accepts a valid name followed by a single
trailing `"\n"`. -/
def CHANNEL_FILTER_match (s : String) : Bool :=
  CHANNEL_FILTER_exact s ||
    (match s.data.getLast? with
     | some c => c == '\n' && CHANNEL_FILTER_exact ⟨s.data.dropLast⟩
     | none => false)

/-- The `/vod/<channel>` route: filter check, then `get_inner` with live
entries enabled. -/
def vod (env : Env) (st : St) (channel : String) : HandlerR :=
  if CHANNEL_FILTER_match channel then get_inner env st channel true
  else ⟨.error .notFound, st, []⟩

/-- The `/vodonly/<channel>` route: filter check, then `get_inner` with
`add_live=False`. -/
def vodonly (env : Env) (st : St) (channel : String) : HandlerR :=
  if CHANNEL_FILTER_match channel then get_inner env st channel false
  else ⟨.error .notFound, st, []⟩

/- ## Definitions taken from the spec's wording (for comparison) -/

/-- From the spec's words only: a `created_at` of the exact textual shape
`YYYY-MM-DDTHH:MM:SSZ` - four digits, a dash, two digits, a dash, two digits,
a capital `T`, then two-digit time components separated by colons and a
capital `Z`. -/
def exactTimestampShape (s : String) : Bool :=
  match s.data with
  | [y1, y2, y3, y4, h1, m1, m2, h2, d1, d2, t1, u1, u2, c1, n1, n2, c2, s1, s2, z1] =>
      y1.isDigit && y2.isDigit && y3.isDigit && y4.isDigit && h1 == '-' &&
      m1.isDigit && m2.isDigit && h2 == '-' && d1.isDigit && d2.isDigit &&
      t1 == 'T' && u1.isDigit && u2.isDigit && c1 == ':' && n1.isDigit &&
      n2.isDigit && c2 == ':' && s1.isDigit && s2.isDigit && z1 == 'Z'
  | _ => false

/- ## Record predicates used in claim statements -/

/-- All six dict keys the entry loop reads are present on the record. -/
def hasAllFields (v : Vod) : Bool :=
  v.url.isSome && v.title.isSome && v.thumbnail_url.isSome &&
  v.description.isSome && v.created_at.isSome && v.id.isSome

/-- The streamlink collaborator succeeds on this record's page URL (vacuously
true when the record has no `url` key). -/
def resolvable (env : Env) (v : Vod) : Bool :=
  match v.url with
  | none => true
  | some u =>
    match env.audioResp (pyQuote u) with
    | .ok _ => true
    | .error _ => false

/-- The record's `created_at`, when present, parses under the source's
strptime format. -/
def dateOk (v : Vod) : Bool :=
  match v.created_at with
  | none => true
  | some ca => (strptime_vod_format ca).isSome

/- ## Concrete fixtures used by the closed theorems below -/

/-- The single video record of the spec's end-to-end scenario (section 8),
with the spec's abstract field names mapped to the upstream keys the source
reads: `pageURL ↦ url`, `thumbnailURLTemplate ↦ thumbnail_url`,
`createdAt ↦ created_at`. -/
def vod1 : Vod :=
  ⟨some "https://x/v1", some "Test", some "https://x/t_%\x7bwidth\x7dx%\x7bheight\x7d.jpg",
   some "d", some "2020-01-01T00:00:00Z", some "v1"⟩

/-- Environment of the end-to-end scenario: channel `foo` resolves to id
`cid`, whose listing holds exactly `vod1`, and streamlink resolves the page
URL to the audio URL. -/
def env1 : Env :=
  { now := 500, acceptEncoding := "",
    tokenResp := .ok ⟨some "tok", some 3600⟩,
    userResp := fun c =>
      if c = "foo" then .ok (.parsed ⟨[⟨"cid", "Foo", "icon"⟩]⟩) else .error (),
    vodResp := fun i => if i = "cid" then .ok (.parsed ⟨[vod1]⟩) else .error (),
    audioResp := fun u =>
      if u = "https://x/v1" then .ok "https://audio/v1.m3u8" else .error () }

/-- Fresh process state with a still-valid credential. -/
def st1 : St := ⟨⟨"tok", 1000⟩, [], [], []⟩

/-- The entry the end-to-end scenario must produce. -/
def entry1 : Entry :=
  { title := "Test", enclosureUrl := "https://audio/v1.m3u8", enclosureType := "audio/mpeg",
    linkHref := "https://x/v1", linkRel := "related",
    description := "<a href=\"https://x/v1\"><img src=\"https://x/t_512x288.jpg\" /></a><br/>d",
    pubDate := ⟨2020, 1, 1, 0, 0, 0⟩, updated := ⟨2020, 1, 1, 0, 0, 0⟩, guid := "v1" }

/-- Environment for the channel-name-filter scenario: the upstream knows the
(filter-passing-with-newline) login `"ab\n"`, whose listing is an empty
array. -/
def env2 : Env :=
  { now := 0, acceptEncoding := "",
    tokenResp := .error (),
    userResp := fun c =>
      if c = "ab\n" then .ok (.parsed ⟨[⟨"cid", "Name", "ic"⟩]⟩) else .error (),
    vodResp := fun i => if i = "cid" then .ok (.parsed ⟨[]⟩) else .error (),
    audioResp := fun _ => .error () }

/-- Fresh state with a valid credential, for `env2`. -/
def st2 : St := ⟨⟨"t", 10⟩, [], [], []⟩

/-- Environment for the empty-listing scenario: channel `ab` exists, its
video listing decodes to a zero-record array. -/
def env3 : Env :=
  { now := 0, acceptEncoding := "",
    tokenResp := .error (),
    userResp := fun c =>
      if c = "ab" then .ok (.parsed ⟨[⟨"cid", "Name", "ic"⟩]⟩) else .error (),
    vodResp := fun i => if i = "cid" then .ok (.parsed ⟨[]⟩) else .error (),
    audioResp := fun _ => .error () }

/-- Fresh state with a valid credential, for `env3`. -/
def st3 : St := ⟨⟨"t", 10⟩, [], [], []⟩

/-- Environment whose identity lookup for channel `c1` returns an empty
(falsy) body. -/
def env3w : Env :=
  { now := 0, acceptEncoding := "",
    tokenResp := .error (),
    userResp := fun c => if c = "c1" then .ok .empty else .error (),
    vodResp := fun _ => .error (),
    audioResp := fun _ => .error () }

/-- A loader that succeeds with the constant value `"w"` and makes no
recorded upstream call (cache-combinator witness input). -/
def load4 : Unit → Except Unit String × Unit × List Call := fun _ => (.ok "w", (), [])

/-- A loader that always fails (cache-combinator witness input). -/
def load7 : Unit → Except Unit String × Unit × List Call := fun _ => (.error (), (), [.token])

/-- Environment for the cached-empty-body scenario at time 0. -/
def env7 : Env :=
  { now := 0, acceptEncoding := "",
    tokenResp := .error (),
    userResp := fun c => if c = "ab" then .ok .empty else .error (),
    vodResp := fun _ => .error (),
    audioResp := fun _ => .error () }

/-- The same world one second later. -/
def env7b : Env :=
  { now := 1, acceptEncoding := "",
    tokenResp := .error (),
    userResp := fun c => if c = "ab" then .ok .empty else .error (),
    vodResp := fun _ => .error (),
    audioResp := fun _ => .error () }

/-- Environment whose streamlink collaborator fails on every URL. -/
def env7c : Env :=
  { now := 0, acceptEncoding := "",
    tokenResp := .error (),
    userResp := fun _ => .error (),
    vodResp := fun _ => .error (),
    audioResp := fun _ => .error () }

/-- Fresh state with a valid credential, for `env7`/`env7b`. -/
def st7 : St := ⟨⟨"t", 10⟩, [], [], []⟩

/-- A complete, processable video record. -/
def vod8good : Vod := ⟨some "u8", some "t8", some "th8", some "", some "2021-06-05T10:20:30Z", some "g8"⟩

/-- A record whose `id` key is missing (every other field processable). -/
def vod8bad : Vod := ⟨some "u8", some "t8", some "th8", some "", some "2021-06-05T10:20:30Z", none⟩

/-- Environment whose streamlink collaborator succeeds on every URL. -/
def env8 : Env :=
  { now := 0, acceptEncoding := "",
    tokenResp := .error (),
    userResp := fun _ => .error (),
    vodResp := fun _ => .error (),
    audioResp := fun _ => .ok "a8" }

/-- A fixed audio-resolver collaborator (failing everywhere), shared by the
two serialization-time environments so that they differ only in the clock. -/
def audio9 : String → Except Unit String := fun _ => .error ()

/-- Feed-build environment at time 0. -/
def env9a : Env :=
  { now := 0, acceptEncoding := "",
    tokenResp := .error (),
    userResp := fun _ => .error (),
    vodResp := fun _ => .error (),
    audioResp := audio9 }

/-- The identical feed-build environment at time 1. -/
def env9b : Env :=
  { now := 1, acceptEncoding := "",
    tokenResp := .error (),
    userResp := fun _ => .error (),
    vodResp := fun _ => .error (),
    audioResp := audio9 }

/-- A record whose `created_at` is *not* of the exact `YYYY-MM-DDTHH:MM:SSZ`
shape (one-digit month) yet is accepted by the source's strptime call. -/
def vod10 : Vod := ⟨some "u", some "t", some "th", some "", some "2020-1-01T00:00:00Z", some "i"⟩

/-- A present-but-unparsable `created_at` (fractional seconds). -/
def vod10bad : Vod :=
  ⟨some "u", some "t", some "th", some "", some "2020-01-01T00:00:00.000Z", some "i"⟩

/-- Environment for the timestamp-shape scenarios. -/
def env10 : Env :=
  { now := 0, acceptEncoding := "",
    tokenResp := .error (),
    userResp := fun _ => .error (),
    vodResp := fun _ => .error (),
    audioResp := fun _ => .ok "a" }

/-- The entry `vod10` produces. -/
def entry10 : Entry :=
  { title := "t", enclosureUrl := "a", enclosureType := "audio/mpeg",
    linkHref := "u", linkRel := "related",
    description := "<a href=\"u\"><img src=\"th\" /></a>",
    pubDate := ⟨2020, 1, 1, 0, 0, 0⟩, updated := ⟨2020, 1, 1, 0, 0, 0⟩, guid := "i" }

/-- Association lookup used to phrase time-independence of the audio cache. -/
def assocFind (k : String) : List (String × String) → Option String
  | [] => none
  | p :: rest => if p.1 = k then some p.2 else assocFind k rest

/-- An audio cache whose every entry was stored at time `now`. -/
def nowMap (now : Nat) (L : List (String × String)) : List (String × Nat × String) :=
  L.map (fun p => (p.1, now, p.2))

/- ## Helper lemmas -/

theorem cacheGet_remove_self {ν : Type} (ttl now : Nat) (k : String)
    (c : List (String × Nat × ν)) : cacheGet ttl now k (cacheRemove k c) = none := by
  induction c with
  | nil => rfl
  | cons e rest ih =>
    rcases e with ⟨k1, t1, v1⟩
    by_cases h : k1 = k
    · simpa [cacheRemove, List.filter_cons, h] using ih
    · simpa [cacheRemove, List.filter_cons, h, cacheGet] using ih

theorem cacheGet_take_none {ν : Type} (ttl now : Nat) (k : String) :
    ∀ (c : List (String × Nat × ν)) (n : Nat), cacheGet ttl now k c = none →
      cacheGet ttl now k (c.take n) = none := by
  intro c
  induction c with
  | nil => intro n h; cases n <;> simpa using h
  | cons e rest ih =>
    intro n h
    cases n with
    | zero => rfl
    | succ m =>
      rw [List.take_succ_cons]
      by_cases hc : e.1 = k ∧ now < e.2.1 + ttl
      · simp only [cacheGet, if_pos hc] at h
        cases h
      · simp only [cacheGet, if_neg hc] at h ⊢
        exact ih m h

theorem cacheGet_insert_within {ν : Type} (ttl maxsize now now2 : Nat) (k : String)
    (v : ν) (c : List (String × Nat × ν)) (h2 : now2 < now + ttl) (hm : 1 ≤ maxsize) :
    cacheGet ttl now2 k (cacheInsert maxsize now k v c) = some v := by
  obtain ⟨m, rfl⟩ : ∃ m, maxsize = m + 1 := ⟨maxsize - 1, by omega⟩
  simp [cacheInsert, List.take_succ_cons, cacheGet, h2]

theorem cacheGet_insert_expired {ν : Type} (ttl maxsize now now3 : Nat) (k : String)
    (v : ν) (c : List (String × Nat × ν)) (h : now + ttl ≤ now3) :
    cacheGet ttl now3 k (cacheInsert maxsize now k v c) = none := by
  cases maxsize with
  | zero => simp [cacheInsert, cacheGet]
  | succ m =>
    have hnot : ¬ (True ∧ now3 < now + ttl) := by
      rintro ⟨-, h2⟩
      omega
    simp only [cacheInsert, List.take_succ_cons, cacheGet]
    rw [if_neg hnot]
    exact cacheGet_take_none ttl now3 k (cacheRemove k c) m (cacheGet_remove_self ttl now3 k c)

theorem cachedCall_hit {ε ν σ : Type} (ttl maxsize now : Nat) (k : String)
    (cache : List (String × Nat × ν)) (load : σ → Except ε ν × σ × List Call) (s : σ)
    (v : ν) (h : cacheGet ttl now k cache = some v) :
    cachedCall ttl maxsize now k cache load s = ⟨.ok v, cache, s, false, []⟩ := by
  simp [cachedCall, h]

theorem cachedCall_miss_ok {ε ν σ : Type} (ttl maxsize now : Nat) (k : String)
    (cache : List (String × Nat × ν)) (load : σ → Except ε ν × σ × List Call) (s : σ)
    (v : ν) (s2 : σ) (cs : List Call) (h : cacheGet ttl now k cache = none)
    (hl : load s = (.ok v, s2, cs)) :
    cachedCall ttl maxsize now k cache load s =
      ⟨.ok v, cacheInsert maxsize now k v cache, s2, true, cs⟩ := by
  simp [cachedCall, h, hl]

theorem cachedCall_miss_error {ε ν σ : Type} (ttl maxsize now : Nat) (k : String)
    (cache : List (String × Nat × ν)) (load : σ → Except ε ν × σ × List Call) (s : σ)
    (e : ε) (s2 : σ) (cs : List Call) (h : cacheGet ttl now k cache = none)
    (hl : load s = (.error e, s2, cs)) :
    cachedCall ttl maxsize now k cache load s = ⟨.error e, cache, s2, true, cs⟩ := by
  simp [cachedCall, h, hl]

theorem cachedCall_error_cache {ε ν σ : Type} (ttl maxsize now : Nat) (k : String)
    (cache : List (String × Nat × ν)) (load : σ → Except ε ν × σ × List Call) (s : σ)
    (e : ε) (h : (cachedCall ttl maxsize now k cache load s).res = .error e) :
    (cachedCall ttl maxsize now k cache load s).cache = cache := by
  rcases hget : cacheGet ttl now k cache with _ | v
  · rcases hl : load s with ⟨r, s2, cs⟩
    cases r with
    | ok w =>
      rw [cachedCall_miss_ok ttl maxsize now k cache load s w s2 cs hget hl] at h
      cases h
    | error e2 =>
      rw [cachedCall_miss_error ttl maxsize now k cache load s e2 s2 cs hget hl]
  · rw [cachedCall_hit ttl maxsize now k cache load s v hget] at h
    cases h

theorem audio_res_ok (env : Env) (ac : List (String × Nat × String)) (vod_url out : String)
    (h : env.audioResp (pyQuote vod_url) = .ok out) :
    ∃ a, (get_audiostream_url env ac vod_url).res = .ok a := by
  unfold get_audiostream_url
  rcases hget : cacheGet USERIDCACHE_LIFETIME env.now vod_url ac with _ | v
  · exact ⟨rstripNewlines out, by simp [cachedCall, hget, h]⟩
  · exact ⟨v, by simp [cachedCall, hget]⟩

theorem processVod_keyError (env : Env) (ac : List (String × Nat × String)) (v : Vod)
    (hres : resolvable env v = true) (hdate : dateOk v = true)
    (hmiss : hasAllFields v = false) :
    (processVod env ac v).res = .error .keyError := by
  rcases v with ⟨url, title, thumb, desc, ca, vid⟩
  cases url with
  | none => rfl
  | some u =>
    cases title with
    | none => rfl
    | some t =>
      rcases ha : env.audioResp (pyQuote u) with e | out
      · exact absurd hres (by simp [resolvable, ha])
      · obtain ⟨a, haud⟩ := audio_res_ok env ac u out ha
        cases thumb with
        | none => simp [processVod, haud]
        | some th =>
          cases desc with
          | none => simp [processVod, haud]
          | some d =>
            cases ca with
            | none => simp [processVod, haud]
            | some c =>
              rcases hdt : strptime_vod_format c with _ | date
              · exact absurd hdate (by simp [dateOk, hdt])
              · cases vid with
                | none => simp [processVod, haud, hdt]
                | some g => exact absurd hmiss (by simp [hasAllFields])

theorem processVod_ok (env : Env) (ac : List (String × Nat × String)) (v : Vod)
    (hall : hasAllFields v = true) (hres : resolvable env v = true)
    (hdate : dateOk v = true) :
    ∃ entry, (processVod env ac v).res = .ok entry := by
  rcases v with ⟨url, title, thumb, desc, ca, vid⟩
  cases url with
  | none => simp [hasAllFields] at hall
  | some u =>
  cases title with
  | none => simp [hasAllFields] at hall
  | some t =>
  cases thumb with
  | none => simp [hasAllFields] at hall
  | some th =>
  cases desc with
  | none => simp [hasAllFields] at hall
  | some d =>
  cases ca with
  | none => simp [hasAllFields] at hall
  | some c =>
  cases vid with
  | none => simp [hasAllFields] at hall
  | some g =>
  rcases ha : env.audioResp (pyQuote u) with e | out
  · exact absurd hres (by simp [resolvable, ha])
  · obtain ⟨a, haud⟩ := audio_res_ok env ac u out ha
    rcases hdt : strptime_vod_format c with _ | date
    · exact absurd hdate (by simp [dateOk, hdt])
    · rcases hpr : (processVod env ac
          ⟨some u, some t, some th, some d, some c, some g⟩).res with e | entry
      · exfalso
        simp [processVod, haud, hdt] at hpr
      · exact ⟨entry, rfl⟩

theorem processVod_valueError (env : Env) (ac : List (String × Nat × String)) (v : Vod)
    (hall : hasAllFields v = true) (hres : resolvable env v = true)
    (hdate : dateOk v = false) :
    (processVod env ac v).res = .error .valueError := by
  rcases v with ⟨url, title, thumb, desc, ca, vid⟩
  cases url with
  | none => simp [hasAllFields] at hall
  | some u =>
  cases title with
  | none => simp [hasAllFields] at hall
  | some t =>
  cases thumb with
  | none => simp [hasAllFields] at hall
  | some th =>
  cases desc with
  | none => simp [hasAllFields] at hall
  | some d =>
  cases ca with
  | none => simp [hasAllFields] at hall
  | some c =>
  cases vid with
  | none => simp [hasAllFields] at hall
  | some g =>
  rcases ha : env.audioResp (pyQuote u) with e | out
  · exact absurd hres (by simp [resolvable, ha])
  · obtain ⟨a, haud⟩ := audio_res_ok env ac u out ha
    rcases hdt : strptime_vod_format c with _ | date
    · simp [processVod, haud, hdt]
    · exact absurd hdate (by simp [dateOk, hdt])

theorem buildEntries_keyError (env : Env) (vods : List Vod) :
    ∀ ac, vods.all (fun v => resolvable env v && dateOk v) = true →
      vods.any (fun v => ! hasAllFields v) = true →
      (buildEntries env vods ac).res = .error .keyError := by
  induction vods with
  | nil => intro ac _ hbad; cases hbad
  | cons v rest ih =>
    intro ac hgood hbad
    simp only [List.all_cons, Bool.and_eq_true] at hgood
    obtain ⟨⟨hres, hdate⟩, hrest⟩ := hgood
    by_cases hv : hasAllFields v = true
    · obtain ⟨entry, he⟩ := processVod_ok env ac v hv hres hdate
      have hbad2 : rest.any (fun v => ! hasAllFields v) = true := by
        simp only [List.any_cons, hv] at hbad
        simpa using hbad
      have hrec := ih (processVod env ac v).audioCache hrest hbad2
      simp [buildEntries, he, hrec]
    · have hk := processVod_keyError env ac v hres hdate (by simpa using hv)
      simp [buildEntries, hk]

theorem buildEntries_valueError_iff (env : Env) (vods : List Vod) :
    ∀ ac, vods.all (fun v => hasAllFields v && resolvable env v) = true →
      ((buildEntries env vods ac).res = .error .valueError ↔
        vods.any (fun v => ! dateOk v) = true) := by
  induction vods with
  | nil => intro ac _; simp [buildEntries]
  | cons v rest ih =>
    intro ac hgood
    simp only [List.all_cons, Bool.and_eq_true] at hgood
    obtain ⟨⟨hall, hres⟩, hrest⟩ := hgood
    cases hd : dateOk v with
    | false =>
      have hv := processVod_valueError env ac v hall hres hd
      simp [buildEntries, hv, List.any_cons, hd]
    | true =>
      obtain ⟨entry, he⟩ := processVod_ok env ac v hall hres hd
      have hrec := ih (processVod env ac v).audioCache hrest
      rcases hr : (buildEntries env rest (processVod env ac v).audioCache).res with e | es
      · rw [hr] at hrec
        simp [buildEntries, he, hr, List.any_cons, hd, hrec]
      · rw [hr] at hrec
        simp only [List.any_cons, hd, Bool.not_true, Bool.false_or]
        simp [buildEntries, he, hr]
        simpa using hrec

theorem authorize_valid (now : Nat) (tr : Except Unit TokenBody) (ts : TokenSt)
    (h : now ≤ ts.expire) : authorize now tr ts = ⟨.ok (), ts, []⟩ := by
  unfold authorize
  rw [if_pos h]

theorem fetch_userid_miss (env : Env) (st : St) (c : String) (b : RawBody UserDoc)
    (hm : cacheGet USERIDCACHE_LIFETIME env.now c st.useridCache = none)
    (ht : env.now ≤ st.tokenSt.expire)
    (hu : env.userResp c = .ok b) :
    fetch_userid env st c =
      ⟨.ok b,
       { st with useridCache := cacheInsert USERID_CACHE_MAXSIZE env.now c b st.useridCache },
       true, [.userid c]⟩ := by
  have hload : fetch_json env.now env.tokenResp (env.userResp c) (.userid c) st.tokenSt =
      (.ok b, st.tokenSt, [.userid c]) := by
    unfold fetch_json
    rw [authorize_valid env.now env.tokenResp st.tokenSt ht]
    simp [hu]
  unfold fetch_userid
  rw [cachedCall_miss_ok USERIDCACHE_LIFETIME USERID_CACHE_MAXSIZE env.now c st.useridCache
      _ st.tokenSt b st.tokenSt [.userid c] hm hload]

theorem fetch_userid_hit (env : Env) (st : St) (c : String) (b : RawBody UserDoc)
    (hm : cacheGet USERIDCACHE_LIFETIME env.now c st.useridCache = some b) :
    fetch_userid env st c = ⟨.ok b, st, false, []⟩ := by
  unfold fetch_userid
  rw [cachedCall_hit USERIDCACHE_LIFETIME USERID_CACHE_MAXSIZE env.now c st.useridCache
      _ st.tokenSt b hm]

theorem fetch_vods_miss (env : Env) (st : St) (i : String) (b : RawBody VodDoc)
    (hm : cacheGet VODCACHE_LIFETIME env.now i st.vodCache = none)
    (ht : env.now ≤ st.tokenSt.expire)
    (hv : env.vodResp i = .ok b) :
    fetch_vods env st i =
      ⟨.ok b,
       { st with vodCache := cacheInsert VOD_CACHE_MAXSIZE env.now i b st.vodCache },
       true, [.vods i]⟩ := by
  have hload : fetch_json env.now env.tokenResp (env.vodResp i) (.vods i) st.tokenSt =
      (.ok b, st.tokenSt, [.vods i]) := by
    unfold fetch_json
    rw [authorize_valid env.now env.tokenResp st.tokenSt ht]
    simp [hv]
  unfold fetch_vods
  rw [cachedCall_miss_ok VODCACHE_LIFETIME VOD_CACHE_MAXSIZE env.now i st.vodCache
      _ st.tokenSt b st.tokenSt [.vods i] hm hload]

theorem fetch_vods_hit (env : Env) (st : St) (i : String) (b : RawBody VodDoc)
    (hm : cacheGet VODCACHE_LIFETIME env.now i st.vodCache = some b) :
    fetch_vods env st i = ⟨.ok b, st, false, []⟩ := by
  unfold fetch_vods
  rw [cachedCall_hit VODCACHE_LIFETIME VOD_CACHE_MAXSIZE env.now i st.vodCache
      _ st.tokenSt b hm]

theorem cacheGet_nowMap (now : Nat) (k : String) (L : List (String × String)) :
    cacheGet USERIDCACHE_LIFETIME now k (nowMap now L) = assocFind k L := by
  induction L with
  | nil => rfl
  | cons p rest ih =>
    rcases p with ⟨k1, v1⟩
    by_cases h : k1 = k
    · have hlt : now < now + USERIDCACHE_LIFETIME := by
        simp [USERIDCACHE_LIFETIME]
      simp [nowMap, cacheGet, assocFind, h, hlt]
    · simp only [nowMap, List.map_cons] at ih ⊢
      simp [cacheGet, assocFind, h, ih]

theorem cacheRemove_nowMap (now : Nat) (k : String) (L : List (String × String)) :
    cacheRemove k (nowMap now L) = nowMap now (L.filter (fun p => decide (p.1 ≠ k))) := by
  induction L with
  | nil => rfl
  | cons p rest ih =>
    rcases p with ⟨k1, v1⟩
    show List.filter (fun e => decide (e.1 ≠ k)) ((k1, now, v1) :: nowMap now rest) =
      nowMap now (List.filter (fun p => decide (p.1 ≠ k)) ((k1, v1) :: rest))
    rw [List.filter_cons, List.filter_cons]
    by_cases h : k1 = k
    · simpa [h, cacheRemove, nowMap] using ih
    · simpa [h, cacheRemove, nowMap] using ih

theorem nowMap_take (now : Nat) (L : List (String × String)) :
    ∀ n, (nowMap now L).take n = nowMap now (L.take n) := by
  induction L with
  | nil => intro n; simp [nowMap]
  | cons p rest ih =>
    rcases p with ⟨k1, v1⟩
    intro n
    cases n with
    | zero => rfl
    | succ m =>
      show (k1, now, v1) :: (nowMap now rest).take m =
        (k1, now, v1) :: nowMap now (rest.take m)
      rw [ih m]

theorem cacheInsert_nowMap (maxsize now : Nat) (k v : String) (L : List (String × String)) :
    cacheInsert maxsize now k v (nowMap now L) =
      nowMap now (((k, v) :: L.filter (fun p => decide (p.1 ≠ k))).take maxsize) := by
  unfold cacheInsert
  rw [cacheRemove_nowMap]
  have hcons : (k, now, v) :: nowMap now (L.filter (fun p => decide (p.1 ≠ k))) =
      nowMap now ((k, v) :: L.filter (fun p => decide (p.1 ≠ k))) := rfl
  rw [hcons, nowMap_take]

theorem get_audiostream_nowMap (e1 e2 : Env) (hA : e1.audioResp = e2.audioResp)
    (L : List (String × String)) (u : String) :
    (get_audiostream_url e1 (nowMap e1.now L) u).res =
      (get_audiostream_url e2 (nowMap e2.now L) u).res ∧
    (get_audiostream_url e1 (nowMap e1.now L) u).calls =
      (get_audiostream_url e2 (nowMap e2.now L) u).calls ∧
    ∃ L2, (get_audiostream_url e1 (nowMap e1.now L) u).cache = nowMap e1.now L2 ∧
          (get_audiostream_url e2 (nowMap e2.now L) u).cache = nowMap e2.now L2 := by
  have h1 := cacheGet_nowMap e1.now u L
  have h2 := cacheGet_nowMap e2.now u L
  unfold get_audiostream_url
  rcases hf : assocFind u L with _ | v
  · rw [hf] at h1 h2
    rcases ha : e1.audioResp (pyQuote u) with err | out
    · have ha2 : e2.audioResp (pyQuote u) = .error err := by rw [← hA]; exact ha
      refine ⟨?_, ?_, L, ?_, ?_⟩ <;> simp [cachedCall, h1, h2, ha, ha2]
    · have ha2 : e2.audioResp (pyQuote u) = .ok out := by rw [← hA]; exact ha
      refine ⟨?_, ?_,
        ((u, rstripNewlines out) :: L.filter (fun p => decide (p.1 ≠ u))).take AUDIO_CACHE_MAXSIZE,
        ?_, ?_⟩ <;>
        simp [cachedCall, h1, h2, ha, ha2, cacheInsert_nowMap]
  · rw [hf] at h1 h2
    refine ⟨?_, ?_, L, ?_, ?_⟩ <;> simp [cachedCall, h1, h2]

theorem processVod_nowMap (e1 e2 : Env) (hA : e1.audioResp = e2.audioResp)
    (L : List (String × String)) (v : Vod) :
    (processVod e1 (nowMap e1.now L) v).res = (processVod e2 (nowMap e2.now L) v).res ∧
    ∃ L2, (processVod e1 (nowMap e1.now L) v).audioCache = nowMap e1.now L2 ∧
          (processVod e2 (nowMap e2.now L) v).audioCache = nowMap e2.now L2 := by
  rcases v with ⟨url, title, thumb, desc, ca, vid⟩
  cases url with
  | none => exact ⟨rfl, L, rfl, rfl⟩
  | some u =>
  cases title with
  | none => exact ⟨rfl, L, rfl, rfl⟩
  | some t =>
  obtain ⟨hres, hcalls, L2, hc1, hc2⟩ := get_audiostream_nowMap e1 e2 hA L u
  rcases hr1 : (get_audiostream_url e1 (nowMap e1.now L) u).res with er | a
  · have hr2 : (get_audiostream_url e2 (nowMap e2.now L) u).res = .error er := by
      rw [← hres]
      exact hr1
    refine ⟨?_, L2, ?_, ?_⟩ <;> simp [processVod, hr1, hr2, hc1, hc2]
  · have hr2 : (get_audiostream_url e2 (nowMap e2.now L) u).res = .ok a := by
      rw [← hres]
      exact hr1
    cases thumb with
    | none => refine ⟨?_, L2, ?_, ?_⟩ <;> simp [processVod, hr1, hr2, hc1, hc2]
    | some th =>
    cases desc with
    | none => refine ⟨?_, L2, ?_, ?_⟩ <;> simp [processVod, hr1, hr2, hc1, hc2]
    | some d =>
    cases ca with
    | none => refine ⟨?_, L2, ?_, ?_⟩ <;> simp [processVod, hr1, hr2, hc1, hc2]
    | some c =>
    rcases hdt : strptime_vod_format c with _ | date
    · refine ⟨?_, L2, ?_, ?_⟩ <;> simp [processVod, hr1, hr2, hc1, hc2, hdt]
    · cases vid with
      | none => refine ⟨?_, L2, ?_, ?_⟩ <;> simp [processVod, hr1, hr2, hc1, hc2, hdt]
      | some g => refine ⟨?_, L2, ?_, ?_⟩ <;> simp [processVod, hr1, hr2, hc1, hc2, hdt]

theorem buildEntries_nowMap (e1 e2 : Env) (hA : e1.audioResp = e2.audioResp) :
    ∀ (vods : List Vod) (L : List (String × String)),
      (buildEntries e1 vods (nowMap e1.now L)).res =
        (buildEntries e2 vods (nowMap e2.now L)).res := by
  intro vods
  induction vods with
  | nil => intro L; rfl
  | cons v rest ih =>
    intro L
    obtain ⟨hres, L2, hc1, hc2⟩ := processVod_nowMap e1 e2 hA L v
    rcases hr1 : (processVod e1 (nowMap e1.now L) v).res with er | entry
    · have hr2 : (processVod e2 (nowMap e2.now L) v).res = .error er := by
        rw [← hres]
        exact hr1
      simp [buildEntries, hr1, hr2]
    · have hr2 : (processVod e2 (nowMap e2.now L) v).res = .ok entry := by
        rw [← hres]
        exact hr1
      have hrec := ih L2
      simp only [buildEntries, hr1, hr2, hc1, hc2]
      rcases hb1 : (buildEntries e1 rest (nowMap e1.now L2)).res with e' | es
      · have hb2 : (buildEntries e2 rest (nowMap e2.now L2)).res = .error e' := by
          rw [← hrec]
          exact hb1
        simp [hb1, hb2]
      · have hb2 : (buildEntries e2 rest (nowMap e2.now L2)).res = .ok es := by
          rw [← hrec]
          exact hb1
        simp [hb1, hb2]

/- ## Claim theorems -/

/-- C1: for a channel whose identity and listing lookups succeed, with the one
video record of the spec's end-to-end scenario and resolved audio URL
`https://audio/v1.m3u8`, the build produces exactly one feed entry whose GUID
is `v1`, whose enclosure is that audio URL with MIME type `audio/mpeg`, and
whose description is an anchor wrapping an image tag with the width/height
placeholders replaced by 512 and 288, followed by the upstream description. -/
theorem c1_end_to_end_feed_entry :
    (vod env1 st1 "foo").res =
      .ok { body := { feed := feedMeta "Foo" "icon" [entry1], updated := 500 },
            contentType := "text/xml", gzipped := false } ∧
    entry1.guid = "v1" ∧
    entry1.enclosureUrl = "https://audio/v1.m3u8" ∧
    entry1.enclosureType = "audio/mpeg" ∧
    pyContains entry1.description "t_512x288.jpg" = true ∧
    entry1.description =
      "<a href=\"https://x/v1\"><img src=\"https://x/t_512x288.jpg\" /></a>" ++ "<br/>" ++ "d" := by
  decide

/-- C2 (counterexample): the channel name `"ab\n"` does not match
`^[a-zA-Z0-9_]{2,25}$` read as a plain full-string pattern, yet the `/vod`
route does not signal NotFound for it and performs upstream calls (Python's
`$` also matches before one trailing newline, so `CHANNEL_FILTER.match`
accepts the name and the request proceeds to the caches and the network). -/
theorem c2_counterexample :
    CHANNEL_FILTER_exact "ab\n" = false ∧
    (vod env2 st2 "ab\n").calls = [.userid "ab\n", .vods "cid"] ∧
    (vod env2 st2 "ab\n").res ≠ .error HErr.notFound := by
  decide

/-- C2 (amended): for every channel name rejected by `CHANNEL_FILTER.match`
under Python `re.match` semantics (which additionally accept 2-25 word
characters followed by one trailing newline), both routes signal NotFound
immediately, leave the state untouched, and perform no cache-filling,
credential or network interaction. -/
theorem c2_amended_invalid_name_rejected :
    ∀ (env : Env) (st : St) (channel : String),
      CHANNEL_FILTER_match channel = false →
      vod env st channel = ⟨.error .notFound, st, []⟩ ∧
      vodonly env st channel = ⟨.error .notFound, st, []⟩ := by
  intro env st c h
  constructor
  · simp [vod, h]
  · simp [vodonly, h]

/-- Witness for the amended C2 at the concrete invalid name `"a!"`. -/
theorem c2_amended_witness :
    vod env2 st2 "a!" = ⟨.error .notFound, st2, []⟩ ∧
    vodonly env2 st2 "a!" = ⟨.error .notFound, st2, []⟩ :=
  c2_amended_invalid_name_rejected env2 st2 "a!" (by decide)

/-- C3 (counterexample): a channel whose video listing decodes to zero records
is answered with a 200 feed containing no entries - not with NotFound - because
`get_inner` only checks the truthiness of the raw body, and `b'{"data":[]}'`
is truthy. -/
theorem c3_counterexample :
    (vod env3 st3 "ab").res =
      .ok { body := { feed := feedMeta "Name" "ic" [], updated := 0 },
            contentType := "text/xml", gzipped := false } ∧
    (vod env3 st3 "ab").res ≠ .error HErr.notFound := by
  decide

/-- C3 (amended): NotFound is signalled exactly when a lookup returns an
empty (falsy) body; a decoded identity document with zero records raises an
uncaught IndexError (a 500, outside the 404 path), and a decoded listing with
zero records yields a successful feed with no entries. -/
theorem c3_amended_upstream_empty_behaviour :
    ∀ (env : Env) (ts : TokenSt) (channel : String),
      env.now ≤ ts.expire →
      (env.userResp channel = .ok .empty →
        (get_inner env ⟨ts, [], [], []⟩ channel true).res = .error .notFound) ∧
      (env.userResp channel = .ok (.parsed ⟨[]⟩) →
        (get_inner env ⟨ts, [], [], []⟩ channel true).res = .error (.internal "IndexError")) ∧
      (∀ u : UserInfo, env.userResp channel = .ok (.parsed ⟨[u]⟩) →
        u.display_name ≠ "" → u.id ≠ "" →
        (env.vodResp u.id = .ok .empty →
          (get_inner env ⟨ts, [], [], []⟩ channel true).res = .error .notFound) ∧
        (env.vodResp u.id = .ok (.parsed ⟨[]⟩) →
          (get_inner env ⟨ts, [], [], []⟩ channel true).res =
            .ok { body := { feed := feedMeta u.display_name u.profile_image_url [],
                            updated := env.now },
                  contentType := "text/xml",
                  gzipped := pyContains env.acceptEncoding "gzip" })) := by
  intro env ts c h
  refine ⟨?_, ?_, ?_⟩
  · intro hu
    have hf := fetch_userid_miss env ⟨ts, [], [], []⟩ c .empty rfl h hu
    simp [get_inner, hf]
  · intro hu
    have hf := fetch_userid_miss env ⟨ts, [], [], []⟩ c (.parsed ⟨[]⟩) rfl h hu
    simp [get_inner, hf]
  · intro u hu hdn hid
    have hf := fetch_userid_miss env ⟨ts, [], [], []⟩ c (.parsed ⟨[u]⟩) rfl h hu
    have hex : extract_userid u = .ok (u.display_name, u.id, u.profile_image_url) := by
      unfold extract_userid
      rw [if_pos ⟨hdn, hid⟩]
    constructor
    · intro hv
      have hfv := fetch_vods_miss env
        { tokenSt := ts,
          useridCache := cacheInsert USERID_CACHE_MAXSIZE env.now c (.parsed ⟨[u]⟩) [],
          vodCache := [], audioCache := [] } u.id .empty rfl h hv
      simp [get_inner, hf, hex, hfv]
    · intro hv
      have hfv := fetch_vods_miss env
        { tokenSt := ts,
          useridCache := cacheInsert USERID_CACHE_MAXSIZE env.now c (.parsed ⟨[u]⟩) [],
          vodCache := [], audioCache := [] } u.id (.parsed ⟨[]⟩) rfl h hv
      simp [get_inner, hf, hex, hfv, construct_rss, buildEntries, atom_str]

/-- Witness for the amended C3: an identity lookup answered with an empty
body yields NotFound. -/
theorem c3_amended_witness :
    (get_inner env3w ⟨⟨"t", 10⟩, [], [], []⟩ "c1" true).res = .error HErr.notFound :=
  (c3_amended_upstream_empty_behaviour env3w ⟨"t", 10⟩ "c1" (by decide)).1 (by decide)

theorem cachedCall_store_then_hit {ε ν σ σ2 : Type} (ttl maxsize now now2 : Nat)
    (k : String) (cache : List (String × Nat × ν))
    (load : σ → Except ε ν × σ × List Call) (s : σ) (v : ν)
    (load2 : σ2 → Except ε ν × σ2 × List Call) (s2 : σ2)
    (hm : cacheGet ttl now k cache = none) (hmax : 1 ≤ maxsize)
    (hres : (cachedCall ttl maxsize now k cache load s).res = .ok v)
    (h2 : now2 < now + ttl) :
    cachedCall ttl maxsize now2 k (cachedCall ttl maxsize now k cache load s).cache load2 s2 =
      ⟨.ok v, (cachedCall ttl maxsize now k cache load s).cache, s2, false, []⟩ := by
  rcases hl : load s with ⟨r, s1, cs⟩
  cases r with
  | error e =>
    rw [cachedCall_miss_error ttl maxsize now k cache load s e s1 cs hm hl] at hres
    cases hres
  | ok w =>
    rw [cachedCall_miss_ok ttl maxsize now k cache load s w s1 cs hm hl] at hres
    obtain rfl : w = v := by injection hres
    rw [cachedCall_miss_ok ttl maxsize now k cache load s w s1 cs hm hl]
    exact cachedCall_hit ttl maxsize now2 k _ load2 s2 w
      (cacheGet_insert_within ttl maxsize now now2 k w cache h2 hmax)

theorem cachedCall_store_then_expired {ε ν σ σ3 : Type} (ttl maxsize now now3 : Nat)
    (k : String) (cache : List (String × Nat × ν))
    (load : σ → Except ε ν × σ × List Call) (s : σ) (v : ν)
    (load3 : σ3 → Except ε ν × σ3 × List Call) (s3 : σ3)
    (hm : cacheGet ttl now k cache = none)
    (hres : (cachedCall ttl maxsize now k cache load s).res = .ok v)
    (h3 : now + ttl ≤ now3) :
    (cachedCall ttl maxsize now3 k
      (cachedCall ttl maxsize now k cache load s).cache load3 s3).fetched = true := by
  rcases hl : load s with ⟨r, s1, cs⟩
  cases r with
  | error e =>
    rw [cachedCall_miss_error ttl maxsize now k cache load s e s1 cs hm hl] at hres
    cases hres
  | ok w =>
    obtain rfl : w = v := by
      rw [cachedCall_miss_ok ttl maxsize now k cache load s w s1 cs hm hl] at hres
      injection hres
    rw [cachedCall_miss_ok ttl maxsize now k cache load s w s1 cs hm hl]
    have hnone := cacheGet_insert_expired ttl maxsize now now3 k w cache h3
    rcases hl3 : load3 s3 with ⟨r3, s4, cs4⟩
    cases r3 <;> simp [cachedCall, hnone, hl3]

/-- C4: the cache combinator behind IdentityCache and ListingCache serves a
stored value with no loader invocation on a hit; after a miss stores the
loaded value, a second lookup of the same key within the TTL returns the
identical value with no upstream call (so the pair causes at most one fetch);
a lookup after the TTL has expired invokes the loader again; and the two
instances use TTLs of 24 hours and 10 minutes with capacities 3000 and 500. -/
theorem c4_cache_ttl_semantics :
    (∀ (ε ν σ : Type) (ttl maxsize now : Nat) (k : String)
        (cache : List (String × Nat × ν)) (load : σ → Except ε ν × σ × List Call)
        (s : σ) (v : ν),
        cacheGet ttl now k cache = some v →
        cachedCall ttl maxsize now k cache load s = ⟨.ok v, cache, s, false, []⟩) ∧
    (∀ (ε ν σ σ2 : Type) (ttl maxsize now now2 : Nat) (k : String)
        (cache : List (String × Nat × ν)) (load : σ → Except ε ν × σ × List Call)
        (s : σ) (v : ν) (load2 : σ2 → Except ε ν × σ2 × List Call) (s2 : σ2),
        cacheGet ttl now k cache = none → 1 ≤ maxsize →
        (cachedCall ttl maxsize now k cache load s).res = .ok v →
        now ≤ now2 → now2 < now + ttl →
        cachedCall ttl maxsize now2 k (cachedCall ttl maxsize now k cache load s).cache load2 s2 =
          ⟨.ok v, (cachedCall ttl maxsize now k cache load s).cache, s2, false, []⟩) ∧
    (∀ (ε ν σ σ3 : Type) (ttl maxsize now now3 : Nat) (k : String)
        (cache : List (String × Nat × ν)) (load : σ → Except ε ν × σ × List Call)
        (s : σ) (v : ν) (load3 : σ3 → Except ε ν × σ3 × List Call) (s3 : σ3),
        cacheGet ttl now k cache = none →
        (cachedCall ttl maxsize now k cache load s).res = .ok v →
        now + ttl ≤ now3 →
        (cachedCall ttl maxsize now3 k
          (cachedCall ttl maxsize now k cache load s).cache load3 s3).fetched = true) ∧
    (∀ (env1 env2 : Env) (st : St) (c : String) (b : RawBody UserDoc),
        cacheGet USERIDCACHE_LIFETIME env1.now c st.useridCache = none →
        (fetch_userid env1 st c).res = .ok b →
        env1.now ≤ env2.now → env2.now < env1.now + USERIDCACHE_LIFETIME →
        (fetch_userid env2 (fetch_userid env1 st c).st c).res = .ok b ∧
        (fetch_userid env2 (fetch_userid env1 st c).st c).calls = [] ∧
        (fetch_userid env2 (fetch_userid env1 st c).st c).fetched = false) ∧
    (∀ (env1 env2 : Env) (st : St) (i : String) (b : RawBody VodDoc),
        cacheGet VODCACHE_LIFETIME env1.now i st.vodCache = none →
        (fetch_vods env1 st i).res = .ok b →
        env1.now ≤ env2.now → env2.now < env1.now + VODCACHE_LIFETIME →
        (fetch_vods env2 (fetch_vods env1 st i).st i).res = .ok b ∧
        (fetch_vods env2 (fetch_vods env1 st i).st i).calls = [] ∧
        (fetch_vods env2 (fetch_vods env1 st i).st i).fetched = false) ∧
    USERIDCACHE_LIFETIME = 24 * 60 * 60 ∧ VODCACHE_LIFETIME = 10 * 60 ∧
    USERID_CACHE_MAXSIZE = 3000 ∧ VOD_CACHE_MAXSIZE = 500 := by
  refine ⟨?_, ?_, ?_, ?_, ?_, rfl, rfl, rfl, rfl⟩
  · intro ε ν σ ttl maxsize now k cache load s v hm
    exact cachedCall_hit ttl maxsize now k cache load s v hm
  · intro ε ν σ σ2 ttl maxsize now now2 k cache load s v load2 s2 hm hmax hres _ h2
    exact cachedCall_store_then_hit ttl maxsize now now2 k cache load s v load2 s2 hm hmax hres h2
  · intro ε ν σ σ3 ttl maxsize now now3 k cache load s v load3 s3 hm hres h3
    exact cachedCall_store_then_expired ttl maxsize now now3 k cache load s v load3 s3 hm hres h3
  · intro env1 env2 st c b hm hres h12 h2
    have hkey := cachedCall_store_then_hit USERIDCACHE_LIFETIME USERID_CACHE_MAXSIZE
      env1.now env2.now c st.useridCache
      (fun ts => fetch_json env1.now env1.tokenResp (env1.userResp c) (.userid c) ts)
      st.tokenSt b
      (fun ts => fetch_json env2.now env2.tokenResp (env2.userResp c) (.userid c) ts)
      (fetch_userid env1 st c).st.tokenSt
      hm (by decide) hres h2
    refine ⟨?_, ?_, ?_⟩ <;>
      simp only [fetch_userid] at hkey ⊢ <;>
      rw [hkey]
  · intro env1 env2 st i b hm hres h12 h2
    have hkey := cachedCall_store_then_hit VODCACHE_LIFETIME VOD_CACHE_MAXSIZE
      env1.now env2.now i st.vodCache
      (fun ts => fetch_json env1.now env1.tokenResp (env1.vodResp i) (.vods i) ts)
      st.tokenSt b
      (fun ts => fetch_json env2.now env2.tokenResp (env2.vodResp i) (.vods i) ts)
      (fetch_vods env1 st i).st.tokenSt
      hm (by decide) hres h2
    refine ⟨?_, ?_, ?_⟩ <;>
      simp only [fetch_vods] at hkey ⊢ <;>
      rw [hkey]

/-- Witness for C4 at concrete inputs: a hit is served from the cache; a
second lookup seven time units after a miss-and-store with TTL 10 is a hit
with no call; a lookup twelve units after it invokes the loader again. -/
theorem c4_witness :
    cachedCall 10 3 5 "k" [("k", 0, "v")] load4 () = ⟨.ok "v", [("k", 0, "v")], (), false, []⟩ ∧
    cachedCall 10 3 7 "k" (cachedCall 10 3 0 "k" ([] : List (String × Nat × String)) load4 ()).cache load4 () =
      ⟨.ok "w", (cachedCall 10 3 0 "k" ([] : List (String × Nat × String)) load4 ()).cache, (), false, []⟩ ∧
    (cachedCall 10 3 12 "k"
      (cachedCall 10 3 0 "k" ([] : List (String × Nat × String)) load4 ()).cache load4 ()).fetched = true := by
  obtain ⟨h1, h2, h3, -, -, -, -, -, -⟩ := c4_cache_ttl_semantics
  exact ⟨h1 Unit String Unit 10 3 5 "k" [("k", 0, "v")] load4 () "v" (by decide),
         h2 Unit String Unit Unit 10 3 0 7 "k" [] load4 () "w" load4 ()
           (by decide) (by decide) (by decide) (by decide) (by decide),
         h3 Unit String Unit Unit 10 3 0 12 "k" [] load4 () "w" load4 ()
           (by decide) (by decide) (by decide)⟩

/-- C5 (counterexample): at the instant `now = expiry` (here both 100) the
manager performs no token exchange and leaves the credential untouched even
though the current time is *not* strictly less than the stored expiry - the
source tests `TWITCH_OAUTH_EXPIRE_EPOCH >= round(time.time())`, an inclusive
bound, so Valid is `now <= expiry`, not `now < expiry`. -/
theorem c5_counterexample :
    authorize 100 (.ok ⟨some "new", some 3600⟩) ⟨"old", 100⟩ = ⟨.ok (), ⟨"old", 100⟩, []⟩ ∧
    ¬ (100 < 100) := by
  decide

/-- C5 (amended): the manager is Valid exactly when `now ≤ expiry` (boundary
inclusive); `authorize` is a no-op in Valid and attempts a token exchange
otherwise; after a refresh with `expires_in = 3600` at time `t`, the call at
`t + 3599` performs no exchange and the call at `t + 3601` performs one. -/
theorem c5_amended_credential_lifecycle :
    (∀ (now : Nat) (tr : Except Unit TokenBody) (ts : TokenSt),
        now ≤ ts.expire → authorize now tr ts = ⟨.ok (), ts, []⟩) ∧
    (∀ (now : Nat) (tr : Except Unit TokenBody) (ts : TokenSt),
        ts.expire < now → (authorize now tr ts).calls ≠ []) ∧
    (∀ (t : Nat) (ts : TokenSt) (tok : String), ts.expire < t →
        authorize t (.ok ⟨some tok, some 3600⟩) ts = ⟨.ok (), ⟨tok, 3600 + t⟩, [.token]⟩ ∧
        (∀ tr2, authorize (t + 3599) tr2 ⟨tok, 3600 + t⟩ = ⟨.ok (), ⟨tok, 3600 + t⟩, []⟩) ∧
        (∀ tr2, (authorize (t + 3601) tr2 ⟨tok, 3600 + t⟩).calls ≠ [])) := by
  refine ⟨fun now tr ts h => authorize_valid now tr ts h, ?_, ?_⟩
  · intro now tr ts h
    unfold authorize
    rw [if_neg (by omega)]
    rcases tr with u | body
    · simp
    · rcases body with ⟨a, ei⟩
      cases a <;> cases ei <;> simp
  · intro t ts tok h
    refine ⟨?_, ?_, ?_⟩
    · unfold authorize
      rw [if_neg (by omega)]
    · intro tr2
      exact authorize_valid (t + 3599) tr2 ⟨tok, 3600 + t⟩ (by show t + 3599 ≤ 3600 + t; omega)
    · intro tr2
      have hlt : ¬ ((⟨tok, 3600 + t⟩ : TokenSt).expire ≥ t + 3601) := by
        show ¬ (3600 + t ≥ t + 3601)
        omega
      unfold authorize
      rw [if_neg hlt]
      rcases tr2 with u | body
      · simp
      · rcases body with ⟨a, ei⟩
        cases a <;> cases ei <;> simp

/-- Witness for the amended C5 at `t = 1`, expiry 0: the exchange happens, the
call at 3600 (= t + 3599) is a no-op, and the call at 3602 (= t + 3601)
attempts an exchange. -/
theorem c5_amended_witness :
    authorize 1 (.ok ⟨some "n", some 3600⟩) ⟨"o", 0⟩ = ⟨.ok (), ⟨"n", 3601⟩, [.token]⟩ ∧
    authorize 3600 (.error ()) ⟨"n", 3601⟩ = ⟨.ok (), ⟨"n", 3601⟩, []⟩ ∧
    (authorize 3602 (.error ()) ⟨"n", 3601⟩).calls ≠ [] := by
  obtain ⟨-, -, h3⟩ := c5_amended_credential_lifecycle
  obtain ⟨ha, hb, hc⟩ := h3 1 ⟨"o", 0⟩ "n" (by decide)
  exact ⟨ha, hb (.error ()), hc (.error ())⟩

/-- C6 (counterexample): a refresh that exhausts its retries on a parseable
body carrying `access_token` but no `expires_in` signals 503 yet mutates the
token global (the source assigns `TWITCH_OAUTH_TOKEN` before reading
`expires_in`), so the credential state is *not* exactly what it was before
the call. -/
theorem c6_counterexample :
    authorize 10 (.ok ⟨some "new", none⟩) ⟨"old", 0⟩ =
      ⟨.error .unavailable, ⟨"new", 0⟩, [.token, .token, .token]⟩ ∧
    ("new" : String) ≠ "old" := by
  decide

/-- C6 (amended): a failed refresh signals UpstreamUnavailable and never
changes the stored expiry (so the manager stays Expired/Unset), and the token
global is unchanged except in one case: a response body that carries
`access_token` but lacks `expires_in` overwrites the token before failing. -/
theorem c6_amended_failed_refresh :
    ∀ (now : Nat) (tr : Except Unit TokenBody) (ts : TokenSt), ts.expire < now →
      (∀ e, (authorize now tr ts).res = .error e → e = HErr.unavailable) ∧
      ((authorize now tr ts).res = .error HErr.unavailable →
        (authorize now tr ts).tok.expire = ts.expire ∧
        (authorize now tr ts).tok.token =
          (match tr with
           | .ok ⟨some tok, none⟩ => tok
           | _ => ts.token)) := by
  intro now tr ts h
  have hneg : ¬ (ts.expire ≥ now) := by omega
  rcases tr with u | body
  · exact ⟨fun e he => by simpa [authorize, hneg] using he.symm,
           fun _ => by simp [authorize, hneg]⟩
  · rcases body with ⟨a, ei⟩
    cases a with
    | none =>
      exact ⟨fun e he => by simpa [authorize, hneg] using he.symm,
             fun _ => by simp [authorize, hneg]⟩
    | some tok =>
      cases ei with
      | none =>
        exact ⟨fun e he => by simpa [authorize, hneg] using he.symm,
               fun _ => by simp [authorize, hneg]⟩
      | some exp =>
        exact ⟨fun e he => by simp [authorize, hneg] at he,
               fun hfail => by simp [authorize, hneg] at hfail⟩

/-- Witness for the amended C6: the partial-mutation case at concrete
values - expiry stays 0, the token global becomes `"n"`. -/
theorem c6_amended_witness :
    (authorize 10 (.ok ⟨some "n", none⟩) ⟨"o", 0⟩).tok.expire = 0 ∧
    (authorize 10 (.ok ⟨some "n", none⟩) ⟨"o", 0⟩).tok.token = "n" :=
  (c6_amended_failed_refresh 10 (.ok ⟨some "n", none⟩) ⟨"o", 0⟩ (by decide)).2 (by decide)

/-- C7 (counterexample): an empty identity body - the value `get_inner` maps
to NotFound - *is* stored in the identity cache: the first request 404s and
caches the empty body, and the second request for the same channel within the
TTL is answered NotFound from the cache with zero upstream calls, instead of
retrying upstream. -/
theorem c7_counterexample :
    (vod env7 st7 "ab").res = .error HErr.notFound ∧
    (vod env7 st7 "ab").st.useridCache = [("ab", 0, RawBody.empty)] ∧
    (vod env7b (vod env7 st7 "ab").st "ab").res = .error HErr.notFound ∧
    (vod env7b (vod env7 st7 "ab").st "ab").calls = [] := by
  decide

/-- C7 (amended): exceptions are never cached - a loader failure leaves the
cache unchanged, and a failed streamlink invocation caches nothing and is
re-invoked on the next call - but an empty body is an ordinary cached value:
a NotFound-producing empty identity body is stored, and a subsequent request
within the TTL is served NotFound from the cache with no upstream call. -/
theorem c7_amended_failure_caching :
    (∀ (ε ν σ : Type) (ttl maxsize now : Nat) (k : String)
        (cache : List (String × Nat × ν)) (load : σ → Except ε ν × σ × List Call)
        (s : σ) (e : ε),
        (cachedCall ttl maxsize now k cache load s).res = .error e →
        (cachedCall ttl maxsize now k cache load s).cache = cache) ∧
    (∀ (env : Env) (ac : List (String × Nat × String)) (u : String),
        env.audioResp (pyQuote u) = .error () →
        cacheGet USERIDCACHE_LIFETIME env.now u ac = none →
        get_audiostream_url env ac u =
          ⟨.error (), ac, (), true, [.streamlink (pyQuote u)]⟩) ∧
    (∀ (env : Env) (st : St) (c : String),
        env.now ≤ st.tokenSt.expire →
        cacheGet USERIDCACHE_LIFETIME env.now c st.useridCache = none →
        env.userResp c = .ok .empty →
        (get_inner env st c true).res = .error .notFound ∧
        (get_inner env st c true).st.useridCache =
          cacheInsert USERID_CACHE_MAXSIZE env.now c .empty st.useridCache ∧
        (∀ env2 : Env, env.now ≤ env2.now → env2.now < env.now + USERIDCACHE_LIFETIME →
          (get_inner env2 (get_inner env st c true).st c true).res = .error .notFound ∧
          (get_inner env2 (get_inner env st c true).st c true).calls = [])) := by
  refine ⟨?_, ?_, ?_⟩
  · intro ε ν σ ttl maxsize now k cache load s e he
    exact cachedCall_error_cache ttl maxsize now k cache load s e he
  · intro env ac u ha hm
    unfold get_audiostream_url
    exact cachedCall_miss_error USERIDCACHE_LIFETIME AUDIO_CACHE_MAXSIZE env.now u ac
      _ () () () [.streamlink (pyQuote u)] hm (by simp [ha])
  · intro env st c ht hm hu
    have hf := fetch_userid_miss env st c .empty hm ht hu
    refine ⟨by simp [get_inner, hf], by simp [get_inner, hf], ?_⟩
    intro env2 h12 h2
    have hhit : cacheGet USERIDCACHE_LIFETIME env2.now c
        (cacheInsert USERID_CACHE_MAXSIZE env.now c RawBody.empty st.useridCache) =
        some RawBody.empty :=
      cacheGet_insert_within USERIDCACHE_LIFETIME USERID_CACHE_MAXSIZE env.now env2.now c
        RawBody.empty st.useridCache h2 (by decide)
    have hf2 := fetch_userid_hit env2
      { st with useridCache := cacheInsert USERID_CACHE_MAXSIZE env.now c RawBody.empty st.useridCache }
      c RawBody.empty hhit
    constructor <;> simp [get_inner, hf, hf2]

/-- Witness for the amended C7 at concrete inputs. -/
theorem c7_amended_witness :
    (cachedCall 10 3 0 "k" ([] : List (String × Nat × String)) load7 ()).cache = [] ∧
    get_audiostream_url env7c [] "u" = ⟨.error (), [], (), true, [.streamlink (pyQuote "u")]⟩ ∧
    (get_inner env7 st7 "ab" true).res = .error HErr.notFound := by
  obtain ⟨h1, h2, h3⟩ := c7_amended_failure_caching
  exact ⟨h1 Unit String Unit 10 3 0 "k" [] load7 () () (by decide),
         h2 env7c [] "u" (by decide) (by decide),
         (h3 env7 st7 "ab" (by decide) (by decide) (by decide)).1⟩

/-- C8: if any video record handed to the feed build is missing one of the six
required keys (`url`, `title`, `thumbnail_url`, `description`, `created_at`,
`id`), and every record is otherwise processable (its page URL resolves and
its timestamp parses, so no earlier exception can preempt the `KeyError`),
then the whole build aborts with the `KeyError`-branch error - the source's
realization of MalformedUpstreamData, surfaced as `abort(404)` - no feed is
produced and no per-item skip occurs, for every position of the offending
record in the sequence. -/
theorem c8_missing_field_aborts :
    ∀ (env : Env) (channel display_name icon : String) (add_live : Bool)
      (vods : List Vod) (ac : List (String × Nat × String)),
      vods.all (fun v => resolvable env v && dateOk v) = true →
      vods.any (fun v => ! hasAllFields v) = true →
      (construct_rss env channel vods display_name icon add_live ac).res =
        .error BuildErr.keyError ∧
      buildErrToHttp BuildErr.keyError = HErr.malformed := by
  intro env ch dn icon al vods ac hgood hbad
  refine ⟨?_, rfl⟩
  have hb := buildEntries_keyError env vods ac hgood hbad
  simp [construct_rss, hb]

/-- Witness for C8: a two-record listing whose second record lacks `id`
aborts the whole build. -/
theorem c8_witness :
    (construct_rss env8 "ch" [vod8good, vod8bad] "dn" "ic" true []).res =
      .error BuildErr.keyError ∧
    buildErrToHttp BuildErr.keyError = HErr.malformed :=
  c8_missing_field_aborts env8 "ch" "dn" "ic" true [vod8good, vod8bad] [] (by decide) (by decide)

/-- C9 (counterexample): two runs of the build-and-serialize pipeline on
identical inputs that differ only in the wall clock produce different
serialized documents, because the serializer stamps the feed-level `updated`
element with the current time; the build output itself is identical. -/
theorem c9_counterexample :
    (construct_rss env9a "ch" [] "a" "b" true []).res = .ok (feedMeta "a" "b" []) ∧
    (construct_rss env9b "ch" [] "a" "b" true []).res = .ok (feedMeta "a" "b" []) ∧
    atom_str (feedMeta "a" "b" []) env9a.now ≠ atom_str (feedMeta "a" "b" []) env9b.now := by
  decide

/-- C9 (amended): for a fixed input (channel, records, identity fields,
includeLive flag, resolver behaviour) and a fresh audio cache, the build
result is a function of the resolver alone - two runs under environments
agreeing on the resolver produce equal feeds regardless of their clocks - and
the serialized documents of two successful runs are byte-identical exactly
when the serialization clocks agree: the feed-level timestamp is the only
hidden-state dependence. -/
theorem c9_amended_determinism_modulo_timestamp :
    ∀ (env1 env2 : Env), env1.audioResp = env2.audioResp →
      ∀ (channel display_name icon : String) (add_live : Bool) (vods : List Vod),
        (construct_rss env1 channel vods display_name icon add_live []).res =
          (construct_rss env2 channel vods display_name icon add_live []).res ∧
        (∀ f1 f2,
          (construct_rss env1 channel vods display_name icon add_live []).res = .ok f1 →
          (construct_rss env2 channel vods display_name icon add_live []).res = .ok f2 →
          (atom_str f1 env1.now = atom_str f2 env2.now ↔ env1.now = env2.now)) := by
  intro e1 e2 hA ch dn icon al vods
  have hb : (buildEntries e1 vods []).res = (buildEntries e2 vods []).res := by
    have hmap := buildEntries_nowMap e1 e2 hA vods []
    simpa [nowMap] using hmap
  have hres : (construct_rss e1 ch vods dn icon al []).res =
      (construct_rss e2 ch vods dn icon al []).res := by
    rcases h1 : (buildEntries e1 vods []).res with er | es
    · have h2 : (buildEntries e2 vods []).res = .error er := by
        rw [← hb]
        exact h1
      simp [construct_rss, h1, h2]
    · have h2 : (buildEntries e2 vods []).res = .ok es := by
        rw [← hb]
        exact h1
      simp [construct_rss, h1, h2]
  refine ⟨hres, ?_⟩
  intro f1 f2 hf1 hf2
  have hf : f1 = f2 := by
    rw [hf1, hf2] at hres
    injection hres
  subst hf
  constructor
  · intro he
    simpa [atom_str, AtomDoc.mk.injEq] using he
  · intro he
    simp [atom_str, he]

/-- Witness for the amended C9 at the two concrete environments. -/
theorem c9_amended_witness :
    (construct_rss env9a "ch" [] "a" "b" true []).res =
      (construct_rss env9b "ch" [] "a" "b" true []).res ∧
    (atom_str (feedMeta "a" "b" []) env9a.now = atom_str (feedMeta "a" "b" []) env9b.now ↔
      env9a.now = env9b.now) := by
  obtain ⟨h1, h2⟩ := c9_amended_determinism_modulo_timestamp env9a env9b rfl "ch" "a" "b" true []
  exact ⟨h1, h2 (feedMeta "a" "b" []) (feedMeta "a" "b" []) (by decide) (by decide)⟩

/-- C10 (counterexample): a record whose `created_at` is `"2020-1-01T00:00:00Z"`
does not have the exact textual shape `YYYY-MM-DDTHH:MM:SSZ` (its month is one
digit), yet the build succeeds without any error: the source's strptime format
accepts one- or two-digit month, day, hour, minute and second fields, so the
claimed "exact shape or error" requirement is too strict. -/
theorem c10_counterexample :
    exactTimestampShape "2020-1-01T00:00:00Z" = false ∧
    (construct_rss env10 "ch" [vod10] "dn" "ic" true []).res =
      .ok (feedMeta "dn" "ic" [entry10]) := by
  decide

/-- C10 (amended): for records with all required fields present and resolvable
page URLs, the build fails exactly when some record's `created_at` is rejected
by `strptime(_, '%Y-%m-%dT%H:%M:%SZ')` (a lenient parser: 1-2 digit numeric
fields and case-insensitive `T`/`Z`, but no fractional seconds or numeric
offsets); the resulting error is the uncaught `ValueError`, which surfaces as
a 500 and is none of NotFound, UpstreamUnavailable, or the
MalformedUpstreamData (`KeyError`) abort. -/
theorem c10_amended_strptime_taxonomy :
    ∀ (env : Env) (channel display_name icon : String) (add_live : Bool)
      (vods : List Vod) (ac : List (String × Nat × String)),
      vods.all (fun v => hasAllFields v && resolvable env v) = true →
      (((construct_rss env channel vods display_name icon add_live ac).res =
          .error BuildErr.valueError) ↔
        vods.any (fun v => ! dateOk v) = true) ∧
      buildErrToHttp BuildErr.valueError = HErr.internal "ValueError" ∧
      (∀ s, HErr.internal s ≠ HErr.notFound ∧ HErr.internal s ≠ HErr.unavailable ∧
        HErr.internal s ≠ HErr.malformed) := by
  intro env ch dn icon al vods ac hgood
  refine ⟨?_, rfl, fun s => ⟨by simp, by simp, by simp⟩⟩
  have hb := buildEntries_valueError_iff env vods ac hgood
  rcases h1 : (buildEntries env vods ac).res with er | es
  · rw [h1] at hb
    simpa [construct_rss, h1] using hb
  · rw [h1] at hb
    simpa [construct_rss, h1] using hb

/-- Witness for the amended C10: fractional seconds are rejected and the build
fails with the `ValueError` outcome. -/
theorem c10_amended_witness :
    (construct_rss env10 "ch" [vod10bad] "dn" "ic" true []).res =
      .error BuildErr.valueError :=
  ((c10_amended_strptime_taxonomy env10 "ch" "dn" "ic" true [vod10bad] [] (by decide)).1).mpr
    (by decide)
